import Mathlib

/-!
Shallow embedding of the pystrap configuration-writing and file-creation
subsystem (modules pystrap.io_operations and pystrap.config_writers,
with the Author record from pystrap.system_core).

The file system is modelled as an explicit state (directories, files with
their contents, and the two log streams of the injected logger).  Python
functions that may raise become functions into a result type carrying the
state at the point of return or raise.  The TOML serializer (tomli_w) is an
external collaborator; serialized structured data is kept as a structured
value inside the file content, injected by a dedicated constructor.
-/

/-- A single quote character, used inside generated file contents. -/
def squote : String := String.singleton (Char.ofNat 39)

/-- Structured values as produced by the config-assembly functions
(the shape of the Python dict-of-str-or-list-or-dict values). -/
inductive Val where
  | s : String → Val
  | list : List Val → Val
  | dict : List (String × Val) → Val

/-- Lookup of a key in a list of key-value pairs (Python dict access). -/
def lookupPairs : List (String × Val) → String → Option Val
  | [], _ => none
  | (k1, v) :: rest, k => if k1 = k then some v else lookupPairs rest k

/-- Lookup of a top-level key of a structured value. -/
def Val.lookup : Val → String → Option Val
  | .dict kvs, k => lookupPairs kvs k
  | _, _ => none

/-- Lookup of a key nested one level deep. -/
def Val.lookup2 (v : Val) (k1 k2 : String) : Option Val :=
  match v.lookup k1 with
  | some inner => inner.lookup k2
  | none => none

/-- The top-level keys of a structured value. -/
def Val.keys : Val → List String
  | .dict kvs => kvs.map (fun kv => kv.1)
  | _ => []

/-- Extract a plain string from a structured value. -/
def Val.asString : Val → Option String
  | .s v => some v
  | _ => none

/-- A string field of the project table of a metadata record. -/
def projFieldStr (m : Val) (k : String) : Option String :=
  match m.lookup2 "project" k with
  | some v => v.asString
  | none => none

/-- Contents of a file on disk: either plain text, or a structured value
serialized by the TOML serializer collaborator. -/
inductive Content where
  | text : String → Content
  | toml : Val → Content

/-- Emptiness of a file as observed by readlines in the source: a text file
is empty exactly when its content string is empty, and a serialized TOML
document is empty exactly when it is the empty table. -/
def Content.isEmptyFile : Content → Bool
  | .text s => s = ""
  | .toml v =>
    match v with
    | .dict [] => true
    | _ => false

/-- The errors the embedded subsystem can raise.  attributeError carries the
name of the missing module attribute; typeError carries the name of the
function called with the wrong number of arguments. -/
inductive PyError where
  | fileExistsError : PyError
  | fileNotFoundError : PyError
  | attributeError : String → PyError
  | typeError : String → PyError
deriving DecidableEq

/-- The state threaded through the embedded operations: the directories and
files on disk, plus the info and warning streams of the injected logger. -/
structure World where
  dirs : List String
  files : List (String × Content)
  infoLog : List String
  warnLog : List String

/-- Result of an embedded operation: a success value with the final state,
or a raised error with the state at the point of the raise. -/
inductive PyResult where
  | ok : Bool → World → PyResult
  | err : PyError → World → PyResult

/-- True when the operation returned normally with value True. -/
def PyResult.isOkTrue : PyResult → Bool
  | .ok true _ => true
  | _ => false

/-- The error raised by the operation, when one was raised. -/
def PyResult.errOf : PyResult → Option PyError
  | .err e _ => some e
  | _ => none

/-- The state when the operation finished, normally or by raising. -/
def PyResult.finalWorld : PyResult → World
  | .ok _ w => w
  | .err _ w => w

/-- Sequencing of a second operation after a first one, where a raise in
the first aborts the second (Python exception propagation). -/
def PyResult.andThen (r : PyResult) (f : World → PyResult) : PyResult :=
  match r with
  | .ok _ w => f w
  | .err e w => .err e w

/-- The set of paths on disk (directories and files), for comparing runs. -/
def World.pathSet (w : World) : List String :=
  w.dirs ++ w.files.map (fun kv => kv.1)

/-- Record an info message of the injected logger. -/
def logger_info (w : World) (message : String) : World :=
  { w with infoLog := w.infoLog ++ [message] }

/-- Record a warning message of the injected logger. -/
def logger_warning (w : World) (message : String) : World :=
  { w with warnLog := w.warnLog ++ [message] }

/-- Lookup in the file table of a world. -/
def lookupFiles : List (String × Content) → String → Option Content
  | [], _ => none
  | (k1, v) :: rest, k => if k1 = k then some v else lookupFiles rest k

/-- Content of the file at a path, when a file exists there. -/
def findFile (w : World) (p : String) : Option Content :=
  lookupFiles w.files p

/-- Replace or insert the content of the file at a path. -/
def setAssoc : List (String × Content) → String → Content → List (String × Content)
  | [], p, c => [(p, c)]
  | (k, v) :: rest, p, c => if k = p then (k, c) :: rest else (k, v) :: setAssoc rest p c

/-- World with the file at a path replaced or created with given content. -/
def setFile (w : World) (p : String) (c : Content) : World :=
  { w with files := setAssoc w.files p c }

/-- Existence of a path on disk, as a directory or as a file
(pathlib Path.exists in the source). -/
def pathExists (w : World) (p : String) : Bool :=
  w.dirs.contains p || (findFile w p).isSome

/-- Split a path into its slash-separated components. -/
def splitChars : List Char → List (List Char)
  | [] => [[]]
  | c :: rest =>
    if c = Char.ofNat 47 then [] :: splitChars rest
    else
      match splitChars rest with
      | [] => [[c]]
      | g :: gs => (c :: g) :: gs

/-- Join path components with slashes. -/
def joinPath : List String → String
  | [] => ""
  | [x] => x
  | x :: xs => x ++ String.singleton (Char.ofNat 47) ++ joinPath xs

/-- The components of a path. -/
def pathParts (p : String) : List String :=
  (splitChars p.toList).map (fun cs => String.mk cs)

/-- All prefixes of a path, shortest first: the directories that
mkdir with the parents flag brings into existence. -/
def pathPrefixes (p : String) : List String :=
  let parts := pathParts p
  (List.range parts.length).map (fun i => joinPath (parts.take (i + 1)))

/-- The parent directory of a path, when the path has more than one
component. -/
def parentDir (p : String) : Option String :=
  let parts := pathParts p
  if parts.length ≤ 1 then none else some (joinPath parts.dropLast)

/-- True when the parent directory of the path exists (or the path is
top-level), so that touch can create the file there. -/
def parentOk (w : World) (p : String) : Bool :=
  match parentDir p with
  | none => true
  | some d => w.dirs.contains d

/-!
Embedding of pystrap.io_operations.
-/

/-- Embedding of io_operations.create_folder: raise FileExistsError when the
path already exists, otherwise run mkdir with the parents flag (which
creates every missing prefix directory, and silently creates nothing when
some prefix is an existing file) and return True. -/
def create_folder (path_to_folder : String) (w : World) : PyResult :=
  if pathExists w path_to_folder then .err .fileExistsError w
  else if (pathPrefixes path_to_folder).any (fun q => (findFile w q).isSome) then
    .ok true w
  else
    .ok true { w with
      dirs := w.dirs ++ (pathPrefixes path_to_folder).filter (fun q => !pathExists w q) }

/-- Embedding of io_operations.create_file: raise FileExistsError when the
path already exists, otherwise run touch (which creates an empty file, and
silently creates nothing when the parent directory is missing) and
return True. -/
def create_file (path_to_file : String) (w : World) : PyResult :=
  if pathExists w path_to_file then .err .fileExistsError w
  else if parentOk w path_to_file then .ok true (setFile w path_to_file (Content.text ""))
  else .ok true w

/-- Embedding of io_operations._file_is_empty: open the file for reading
(raising FileNotFoundError when it does not exist) and report whether
readlines yields no lines. -/
def file_is_empty (path_to_file : String) (w : World) : PyResult :=
  match findFile w path_to_file with
  | none => .err .fileNotFoundError w
  | some c => .ok c.isEmptyFile w

/-- Embedding of io_operations.write_contents_to_file: when the target file
is not empty, the source tries to raise
pystrap.system_core.FileNotEmptyException, but system_core defines no such
class, so the attribute lookup itself raises AttributeError (naming the
missing FileNotEmptyException) before any exception object is built and
before any write; otherwise the file is overwritten with the given
contents and True is returned. -/
def write_contents_to_file (path_to_file : String) (contents : Content) (w : World) : PyResult :=
  match file_is_empty path_to_file w with
  | .err e w1 => .err e w1
  | .ok isEmpty w1 =>
    if isEmpty then .ok true (setFile w1 path_to_file contents)
    else .err (.attributeError "FileNotEmptyException") w1

/-!
Embedding of the io calls as made by pystrap.config_writers.  The
config_writers call sites pass the logger as an extra positional argument,
but the io_operations functions above take only the path (and contents):
in Python the argument binding of such a call fails, so the call raises
TypeError immediately, before the callee body runs and before any
filesystem effect.
-/

/-- The call create_folder(folder_name, logger) made by
create_project_structure: io_operations.create_folder takes a single
parameter, so the extra logger argument raises TypeError at the call and
nothing is created. -/
def create_folder_with_logger (path_to_folder : String) (w : World) : PyResult :=
  let _ := path_to_folder
  .err (.typeError "create_folder") w

/-- The call create_file(file_name, logger) made by
create_project_structure: io_operations.create_file takes a single
parameter, so the extra logger argument raises TypeError at the call and
nothing is created. -/
def create_file_with_logger (path_to_file : String) (w : World) : PyResult :=
  let _ := path_to_file
  .err (.typeError "create_file") w

/-- The call write_contents_to_file(path, contents, logger) made by
write_configuration_to_files: io_operations.write_contents_to_file takes
two parameters, so the extra logger argument raises TypeError at the call
and nothing is written. -/
def write_contents_to_file_with_logger (path_to_file : String) (contents : Content)
    (w : World) : PyResult :=
  let _ := path_to_file
  let _ := contents
  .err (.typeError "write_contents_to_file") w

/-!
Embedding of pystrap.system_core.Author and pystrap.config_writers.
-/

/-- Embedding of system_core.Author. -/
structure Author where
  name : String
  email : String

/-- The author name used by get_project_metadata: the name of the author
when one was given, the empty string otherwise. -/
def author_name (author : Option Author) : String :=
  match author with
  | some a => a.name
  | none => ""

/-- The author email used by get_project_metadata: the email of the author
when one was given, the empty string otherwise. -/
def author_email (author : Option Author) : String :=
  match author with
  | some a => a.email
  | none => ""

/-- The description used by get_project_metadata: the given description when
it is a non-empty (truthy) string, the empty string otherwise. -/
def project_description (description : Option String) : String :=
  match description with
  | some d => if d = "" then "" else d
  | none => ""

/-- Embedding of config_writers.get_project_metadata: build the structured
metadata record for the pyproject.toml file. -/
def get_project_metadata (project_name : String) (description : Option String)
    (author : Option Author) : Val :=
  let authors : List (String × Val) :=
    [("name", Val.s (author_name author)), ("email", Val.s (author_email author))]
  Val.dict [("project", Val.dict [
    ("name", Val.s project_name),
    ("description", Val.s (project_description description)),
    ("version", Val.s "0.0.1"),
    ("authors", Val.list [Val.dict authors]),
    ("maintainers", Val.list [Val.dict authors]),
    ("requires-python", Val.s ">=3.10")])]

/-- Embedding of config_writers.get_build_system_config: the default
settings for a build-system section, keyed by the literal string
written with surrounding square brackets in the source. -/
def get_build_system_config : Val :=
  Val.dict [("[build-system]", Val.dict [
    ("requires", Val.list [Val.s "setuptools>=42", Val.s "wheel"]),
    ("build-backend", Val.s "setuptools.build_meta")])]

/-- The literal setup.py stub written by config_writers (two statements:
the setuptools import and the guarded call to setup). -/
def setup_py_contents : String :=
  "from setuptools import setup" ++ "\n" ++ "\n"
    ++ "if __name__ == " ++ squote ++ "__main__" ++ squote ++ ":\n" ++ "    setup()"

/-- The fixed placeholder description substituted by
write_configuration_to_files when no description is supplied. -/
def placeholderDescription : String := "This project has been created with pystrap."

/-- The description after the defaulting done at the start of
write_configuration_to_files: the placeholder when the given description is
missing or empty (falsy), the given description otherwise. -/
def resolved_description (description : Option String) : String :=
  match description with
  | some d => if d = "" then placeholderDescription else d
  | none => placeholderDescription

/-- Embedding of config_writers.write_configuration_to_files: default the
description to the placeholder when it is missing or empty, build the
metadata record, then call write_contents_to_file with the serialized
record, pyproject.toml and the logger — a call that raises TypeError (the
io function takes two parameters); the matching setup.py call would be
reached only when distributable and the first call returned.  No exception
handler is present in the source, so a raise propagates. -/
def write_configuration_to_files (project_name : String) (distributable : Bool)
    (author : Option Author) (description : Option String) (w : World) : PyResult :=
  let description1 : String := resolved_description description
  let w := logger_info w "Writing contents to files"
  let pyprojcect_contents : Val := get_project_metadata project_name (some description1) author
  match write_contents_to_file_with_logger "pyproject.toml"
      (Content.toml pyprojcect_contents) w with
  | .err e w1 => .err e w1
  | .ok _ w1 =>
    if distributable then
      match write_contents_to_file_with_logger "setup.py"
          (Content.text setup_py_contents) w1 with
      | .err e w2 => .err e w2
      | .ok _ w2 => .ok true w2
    else .ok true w1

/-- Run an io operation over each path of a list in order, ignoring the
returned success values; a raise aborts the remaining iterations
(the loop bodies in create_project_structure). -/
def runAll (f : String → World → PyResult) : List String → World → PyResult
  | [], w => .ok true w
  | p :: ps, w =>
    match f p w with
    | .err e w1 => .err e w1
    | .ok _ w1 => runAll f ps w1

/-- Embedding of config_writers.create_project_structure: iterate the
project folders, then the top-level files (with setup.py only when
distributable), then the init files, in order, calling the io creation
functions with the logger as extra argument — calls that raise TypeError;
no exception handler is present in the source, so the raise from the first
iteration propagates. -/
def create_project_structure (project_name : String) (distributable : Bool)
    (w : World) : PyResult :=
  let toplevel_file_names : List String :=
    if distributable then ["pyproject.toml", "setup.py"] else ["pyproject.toml"]
  let project_folders : List String := ["src/" ++ project_name, "tests"]
  let init_files : List String :=
    ["tests/__init__.py", "src/" ++ project_name ++ "/__init__.py"]
  let w := logger_info w "Creating folders"
  (runAll create_folder_with_logger project_folders w).andThen (fun w1 =>
    let w1 := logger_info w1 "Creating files"
    (runAll create_file_with_logger toplevel_file_names w1).andThen (fun w2 =>
      let w2 := logger_info w2 "Creating init-files"
      (runAll create_file_with_logger init_files w2).andThen (fun w3 =>
        .ok true w3)))

/-!
Helper lemmas about the file-table state.
-/

/-- Looking up the path just written finds the written content. -/
theorem lookupFiles_setAssoc_self (l : List (String × Content)) (p : String) (c : Content) :
    lookupFiles (setAssoc l p c) p = some c := by
  induction l with
  | nil => simp [setAssoc, lookupFiles]
  | cons kv rest ih =>
    obtain ⟨k, v⟩ := kv
    by_cases hk : k = p
    · subst hk
      simp [setAssoc, lookupFiles]
    · simp [setAssoc, lookupFiles, hk, ih]

/-- Writing one path leaves the lookup of a different path unchanged. -/
theorem lookupFiles_setAssoc_ne (l : List (String × Content)) (p q : String) (c : Content)
    (hpq : p ≠ q) :
    lookupFiles (setAssoc l p c) q = lookupFiles l q := by
  induction l with
  | nil => simp [setAssoc, lookupFiles, hpq]
  | cons kv rest ih =>
    obtain ⟨k, v⟩ := kv
    by_cases hk : k = p
    · subst hk
      simp [setAssoc, lookupFiles, hpq]
    · by_cases hq : k = q
      · simp [setAssoc, lookupFiles, hk, hq, Ne.symm hpq]
      · simp [setAssoc, lookupFiles, hk, hq, ih]

/-- The file just written holds the written content. -/
theorem findFile_setFile (w : World) (p : String) (c : Content) :
    findFile (setFile w p c) p = some c :=
  lookupFiles_setAssoc_self w.files p c

/-- Writing one file leaves every other file unchanged. -/
theorem findFile_setFile_ne (w : World) (p q : String) (c : Content) (hpq : p ≠ q) :
    findFile (setFile w p c) q = findFile w q :=
  lookupFiles_setAssoc_ne w.files p q c hpq

/-- A path that does not exist at all has no file content. -/
theorem findFile_eq_none_of_not_exists (w : World) (p : String)
    (h : pathExists w p = false) : findFile w p = none := by
  unfold pathExists at h
  cases hf : findFile w p with
  | none => rfl
  | some c => rw [hf] at h; simp at h

/-!
Helper lemmas about write_contents_to_file and its callers.
-/

/-- On an existing file, write_contents_to_file branches on emptiness of
the current content. -/
theorem write_contents_eq_ite (w : World) (f : String) (c s : Content)
    (h : findFile w f = some s) :
    write_contents_to_file f c w
      = if s.isEmptyFile then PyResult.ok true (setFile w f c)
        else PyResult.err (PyError.attributeError "FileNotEmptyException") w := by
  unfold write_contents_to_file file_is_empty
  rw [h]

/-- Writing into an empty text file succeeds and stores the contents. -/
theorem write_contents_ok (w : World) (f : String) (c : Content)
    (h : findFile w f = some (Content.text "")) :
    write_contents_to_file f c w = PyResult.ok true (setFile w f c) := by
  have key := write_contents_eq_ite w f c (Content.text "") h
  simpa [Content.isEmptyFile] using key

/-- Writing into an absent file raises FileNotFoundError. -/
theorem write_contents_notfound (w : World) (f : String) (c : Content)
    (h : findFile w f = none) :
    write_contents_to_file f c w = PyResult.err PyError.fileNotFoundError w := by
  unfold write_contents_to_file file_is_empty
  rw [h]

/-- Every run of write_configuration_to_files raises TypeError at the
pyproject.toml write call (the extra logger argument), whatever the state,
flags and inputs, leaving only the logged info message behind. -/
theorem write_configuration_always_type_error (pn : String) (dist : Bool)
    (a : Option Author) (d : Option String) (w : World) :
    write_configuration_to_files pn dist a d w
      = PyResult.err (PyError.typeError "write_contents_to_file")
          (logger_info w "Writing contents to files") :=
  rfl

/-!
Concrete states used by the claim theorems and witnesses.
-/

/-- A clean working directory. -/
def cleanWorld : World := { dirs := [], files := [], infoLog := [], warnLog := [] }

/-- A state with an existing non-empty target file. -/
def nonEmptyFileWorld : World :=
  { dirs := [], files := [("a.txt", Content.text "data")], infoLog := [], warnLog := [] }

/-- A state where pyproject.toml exists and is empty, as left by the
layout step. -/
def writerWorld : World :=
  { dirs := [], files := [("pyproject.toml", Content.text "")], infoLog := [], warnLog := [] }

/-- A state where pyproject.toml already has content. -/
def dirtyWorld : World :=
  { dirs := [], files := [("pyproject.toml", Content.text "user edited")],
    infoLog := [], warnLog := [] }

/-- A state where pyproject.toml is empty but setup.py has content. -/
def dirtyWorld2 : World :=
  { dirs := [],
    files := [("pyproject.toml", Content.text ""), ("setup.py", Content.text "custom setup")],
    infoLog := [], warnLog := [] }

/-- A state where pyproject.toml and setup.py both exist and are empty. -/
def bothEmptyWorld : World :=
  { dirs := [],
    files := [("pyproject.toml", Content.text ""), ("setup.py", Content.text "")],
    infoLog := [], warnLog := [] }

/-!
The claim theorems.
-/

/-- C1 (code bug): for every existing target file f and contents c,
write_contents_to_file succeeds (returns True) and leaves f containing
exactly c when f was empty before the call, and on a non-empty file it
raises with the state (in particular the content of f) unchanged — but
the raised error is AttributeError over the missing FileNotEmptyException
attribute of system_core, not the FileNotEmptyException the claim names,
which is defined nowhere. -/
theorem write_contents_to_file_spec (w : World) (f : String) (c s : Content)
    (h : findFile w f = some s) :
    (s.isEmptyFile = true →
      write_contents_to_file f c w = PyResult.ok true (setFile w f c) ∧
      findFile (setFile w f c) f = some c) ∧
    (s.isEmptyFile = false →
      write_contents_to_file f c w
        = PyResult.err (PyError.attributeError "FileNotEmptyException") w) := by
  have key := write_contents_eq_ite w f c s h
  constructor
  · intro he
    rw [he] at key
    simp only [if_true] at key
    exact ⟨key, findFile_setFile w f c⟩
  · intro he
    rw [he] at key
    simp only [Bool.false_eq_true, if_false] at key
    exact key

/-- Witness for C1 at a concrete state: a.txt exists and holds the text
data, and writing to it behaves as the theorem states (the non-empty
branch raises the AttributeError, not a FileNotEmptyException). -/
theorem write_contents_to_file_spec_witness :
    findFile nonEmptyFileWorld "a.txt" = some (Content.text "data") ∧
    (((Content.text "data").isEmptyFile = true →
      write_contents_to_file "a.txt" (Content.text "hello") nonEmptyFileWorld
        = PyResult.ok true (setFile nonEmptyFileWorld "a.txt" (Content.text "hello")) ∧
      findFile (setFile nonEmptyFileWorld "a.txt" (Content.text "hello")) "a.txt"
        = some (Content.text "hello")) ∧
    ((Content.text "data").isEmptyFile = false →
      write_contents_to_file "a.txt" (Content.text "hello") nonEmptyFileWorld
        = PyResult.err (PyError.attributeError "FileNotEmptyException") nonEmptyFileWorld)) :=
  ⟨rfl, write_contents_to_file_spec nonEmptyFileWorld "a.txt" (Content.text "hello")
    (Content.text "data") rfl⟩

/-- C2 (code bug): write_configuration_to_files, run on an empty
pyproject.toml, raises TypeError at its 3-argument call to the
2-parameter write_contents_to_file and writes nothing (pyproject.toml
keeps its empty content); moreover even the metadata record it builds for
serialization has project as its only top-level table — the build-system
table required by the claim is absent, get_build_system_config never
being composed into the document. -/
theorem write_configuration_missing_build_system :
    write_configuration_to_files "demo" false none none writerWorld
      = PyResult.err (PyError.typeError "write_contents_to_file")
          (logger_info writerWorld "Writing contents to files") ∧
    findFile (write_configuration_to_files "demo" false none none writerWorld).finalWorld
        "pyproject.toml" = some (Content.text "") ∧
    Val.keys (get_project_metadata "demo" (some placeholderDescription) none) = ["project"] ∧
    Val.lookup (get_project_metadata "demo" (some placeholderDescription) none) "build-system"
      = none :=
  ⟨rfl, rfl, rfl, rfl⟩

/-- C3 (code bug): nothing is caught inside write_configuration_to_files:
with pyproject.toml non-empty (or setup.py non-empty and the
distributable flag set) the run fails — the error that escapes is the
TypeError of the extra-logger write call, raised before the emptiness
check is ever reached, and no handler exists that could turn any write
failure into a logged warning with overall success. -/
theorem write_configuration_exception_escapes :
    write_configuration_to_files "demo" false none none dirtyWorld
      = PyResult.err (PyError.typeError "write_contents_to_file")
          (logger_info dirtyWorld "Writing contents to files") ∧
    (write_configuration_to_files "demo" true none none dirtyWorld2).errOf
      = some (PyError.typeError "write_contents_to_file") ∧
    (write_configuration_to_files "demo" false none none dirtyWorld).isOkTrue = false :=
  ⟨rfl, rfl, rfl⟩

/-- C4 (code bug): from a clean directory, already the first run of
create_project_structure fails: its first loop iteration calls
create_folder with the logger as extra argument, which raises TypeError
(uncaught, create_project_structure having no handler), so the run does
not return success and creates no directory or file at all. -/
theorem create_project_structure_first_run_raises :
    create_project_structure "demo" false cleanWorld
      = PyResult.err (PyError.typeError "create_folder")
          (logger_info cleanWorld "Creating folders") ∧
    (create_project_structure "demo" false cleanWorld).isOkTrue = false ∧
    (create_project_structure "demo" false cleanWorld).finalWorld.pathSet
      = cleanWorld.pathSet :=
  ⟨rfl, rfl, rfl⟩

/-- C5 counterexample: with no description supplied, get_project_metadata
itself sets project.description to the empty string, not to the fixed
placeholder sentence. -/
theorem get_project_metadata_description_counterexample :
    projFieldStr (get_project_metadata "foo" none none) "description" = some "" ∧
    projFieldStr (get_project_metadata "foo" none none) "description"
      ≠ some placeholderDescription := by decide

/-- C5 (amended): the placeholder default is resolved at the call site,
not in Config Assembly: the defaulting step at the start of
write_configuration_to_files (embedded as resolved_description) turns a
missing description into the placeholder, so the record it builds for
serialization carries the placeholder, while get_project_metadata alone
defaults the description to the empty string; the record is never
successfully written, the write call raising TypeError. -/
theorem write_configuration_description_default (pn : String) (a : Option Author) :
    resolved_description none = placeholderDescription ∧
    projFieldStr (get_project_metadata pn (some (resolved_description none)) a) "description"
      = some placeholderDescription ∧
    projFieldStr (get_project_metadata pn none none) "description" = some "" ∧
    write_configuration_to_files pn false a none writerWorld
      = PyResult.err (PyError.typeError "write_contents_to_file")
          (logger_info writerWorld "Writing contents to files") :=
  ⟨rfl, rfl, rfl, rfl⟩

/-- C6: get_project_metadata applied to foo with no author and no
description yields project.name foo, project.version 0.0.1, a single
authors entry with empty name and email, and requires-python >=3.10. -/
theorem get_project_metadata_foo_defaults :
    (get_project_metadata "foo" none none).lookup2 "project" "name" = some (Val.s "foo") ∧
    (get_project_metadata "foo" none none).lookup2 "project" "version"
      = some (Val.s "0.0.1") ∧
    (get_project_metadata "foo" none none).lookup2 "project" "authors"
      = some (Val.list [Val.dict [("name", Val.s ""), ("email", Val.s "")]]) ∧
    (get_project_metadata "foo" none none).lookup2 "project" "requires-python"
      = some (Val.s ">=3.10") :=
  ⟨rfl, rfl, rfl, rfl⟩

/-- C7: for every project name, description and author (including none),
the metadata record has project.maintainers equal to project.authors, each
the single-element list holding the name/email record of the author. -/
theorem get_project_metadata_maintainers_eq_authors (n : String) (d : Option String)
    (a : Option Author) :
    (get_project_metadata n d a).lookup2 "project" "maintainers"
      = (get_project_metadata n d a).lookup2 "project" "authors" ∧
    (get_project_metadata n d a).lookup2 "project" "authors"
      = some (Val.list [Val.dict [("name", Val.s (author_name a)),
          ("email", Val.s (author_email a))]]) :=
  ⟨rfl, rfl⟩

/-- C8 counterexample: the record returned by get_build_system_config is
not a build-system table: its single top-level key is the literal string
with surrounding square brackets, and there is no build-system key, so the
record cannot compose with the project section into the specified
document. -/
theorem get_build_system_config_key_counterexample :
    Val.keys get_build_system_config = ["[build-system]"] ∧
    Val.lookup get_build_system_config "build-system" = none :=
  ⟨rfl, rfl⟩

/-- C8 (amended): get_build_system_config is a constant returning a record
whose single top-level key is the bracketed literal, holding the fixed
requires list and build backend; it is not keyed build-system. -/
theorem get_build_system_config_amended :
    get_build_system_config.lookup2 "[build-system]" "requires"
      = some (Val.list [Val.s "setuptools>=42", Val.s "wheel"]) ∧
    get_build_system_config.lookup2 "[build-system]" "build-backend"
      = some (Val.s "setuptools.build_meta") ∧
    Val.keys get_build_system_config = ["[build-system]"] ∧
    get_build_system_config.lookup "build-system" = none :=
  ⟨rfl, rfl, rfl, rfl⟩

/-- C9 (code bug): even from a state where pyproject.toml and setup.py
both exist and are empty, write_configuration_to_files never writes
setup.py with either value of the distributable flag: the pyproject.toml
write call raises TypeError (extra logger argument) before the
distributable branch is reached, so setup.py keeps its prior content in
both cases and neither run returns success — the two-statement stub text
does appear verbatim in the source (setup_py_contents) but is never
written. -/
theorem write_configuration_never_writes_setup_py :
    (write_configuration_to_files "demo" true none none bothEmptyWorld).errOf
      = some (PyError.typeError "write_contents_to_file") ∧
    findFile (write_configuration_to_files "demo" true none none bothEmptyWorld).finalWorld
        "setup.py" = some (Content.text "") ∧
    (write_configuration_to_files "demo" false none none bothEmptyWorld).errOf
      = some (PyError.typeError "write_contents_to_file") ∧
    findFile (write_configuration_to_files "demo" false none none bothEmptyWorld).finalWorld
        "setup.py" = some (Content.text "") ∧
    setup_py_contents
      = "from setuptools import setup" ++ "\n" ++ "\n"
          ++ "if __name__ == " ++ squote ++ "__main__" ++ squote ++ ":\n" ++ "    setup()" :=
  ⟨rfl, rfl, rfl, rfl, rfl⟩

/-- C10: on a path that does not exist at all, write_contents_to_file
raises FileNotFoundError from its emptiness check (not
FileNotEmptyException) and changes nothing, and after create_file has
succeeded on that path (its parent directory existing) the same write
succeeds. -/
theorem write_contents_to_file_absent (w : World) (f : String) (c : Content)
    (h : pathExists w f = false) (hp : parentOk w f = true) :
    write_contents_to_file f c w = PyResult.err PyError.fileNotFoundError w ∧
    create_file f w = PyResult.ok true (setFile w f (Content.text "")) ∧
    write_contents_to_file f c (setFile w f (Content.text ""))
      = PyResult.ok true (setFile (setFile w f (Content.text "")) f c) := by
  have hn : findFile w f = none := findFile_eq_none_of_not_exists w f h
  refine ⟨write_contents_notfound w f c hn, ?_, ?_⟩
  · unfold create_file
    rw [h, hp]
    simp
  · exact write_contents_ok _ f c (findFile_setFile w f (Content.text ""))

/-- Witness for C10 at a concrete state: a clean directory and the
top-level path pyproject.toml. -/
theorem write_contents_to_file_absent_witness :
    pathExists cleanWorld "pyproject.toml" = false ∧
    parentOk cleanWorld "pyproject.toml" = true ∧
    (write_contents_to_file "pyproject.toml" (Content.text "x") cleanWorld
      = PyResult.err PyError.fileNotFoundError cleanWorld ∧
    create_file "pyproject.toml" cleanWorld
      = PyResult.ok true (setFile cleanWorld "pyproject.toml" (Content.text "")) ∧
    write_contents_to_file "pyproject.toml" (Content.text "x")
        (setFile cleanWorld "pyproject.toml" (Content.text ""))
      = PyResult.ok true (setFile (setFile cleanWorld "pyproject.toml" (Content.text ""))
          "pyproject.toml" (Content.text "x"))) :=
  ⟨rfl, rfl,
    write_contents_to_file_absent cleanWorld "pyproject.toml" (Content.text "x") rfl rfl⟩
